import Mathlib

/-!
Verification development for `gromacs/setup.py` (GromacsWrapper).

The file shallowly embeds the pure/decidable content of the MD setup pipeline:
the stage functions `topology`, `solvate`, `energy_minimize`, `_setup_MD`, and
the helpers `make_main_index`, `add_mdp_includes`, `check_mdpargs`.  External
tool invocations (pdb2gmx, editconf, genbox, grompp, genion, make_ndx, mdrun)
are modelled as events in a trace together with oracle environments that supply
the outputs the Python code parses from them (total charge qtot, parsed index
group lists, tool success or failure).  Python exceptions are modelled with an
explicit error type threaded through an Except-with-trace monad, so that
control flow after a raised exception is faithfully cut off while the events
emitted before it remain observable.  Python floats are modelled as rationals.
-/

set_option autoImplicit false

namespace Setup

/-- Decidable equality for exception-or-value results. -/
instance exceptDecEq {e a : Type} [DecidableEq e] [DecidableEq a] : DecidableEq (Except e a) :=
  fun x y =>
    match x, y with
    | Except.ok u, Except.ok v =>
        if h : u = v then Decidable.isTrue (by rw [h]) else
          Decidable.isFalse (by intro hc; injection hc; exact h (by assumption))
    | Except.error u, Except.error v =>
        if h : u = v then Decidable.isTrue (by rw [h]) else
          Decidable.isFalse (by intro hc; injection hc; exact h (by assumption))
    | Except.ok _, Except.error _ => Decidable.isFalse (by intro hc; exact Except.noConfusion hc)
    | Except.error _, Except.ok _ => Decidable.isFalse (by intro hc; exact Except.noConfusion hc)

/-- Python exceptions that the embedded code can raise. -/
inductive PyError where
  | nameError (n : String)
  | typeError (msg : String)
  | keyError (k : String)
  | indexError
  | assertionError
  | zeroDivisionError
  | attributeError
  | osError
  | valueError (msg : String)
  | gromacsError (msg : String)
  deriving DecidableEq, Repr

/-- Warning categories used by the module (`warnings.warn(..., category=...)`). -/
inductive WarnKind where
  | autoCorrection
  | badParameter
  | usage
  | gromacsFailure
  deriving DecidableEq, Repr

/-- Values appearing in keyword-argument dictionaries (mdp parameters,
command-line options): strings, numbers (Python ints and floats, both
modelled as rationals), booleans and Python None. -/
inductive MdpVal where
  | str (s : String)
  | num (q : ℚ)
  | bool (b : Bool)
  | pynone
  deriving DecidableEq, Repr

/-- Python `int()` applied to a (rational-modelled) float: truncation toward
zero. -/
def pyint (x : ℚ) : ℤ :=
  if 0 ≤ x then ⌊x⌋ else ⌈x⌉

/-- Python dictionaries are modelled as association lists with unique keys
maintained by the operations (insertion order preserved, as in Python). -/
abbrev Dict (α : Type) := List (String × α)

/-- Dictionary lookup `d[k]` / `d.get(k)`. -/
def dget? {α : Type} (d : Dict α) (k : String) : Option α :=
  (d.find? (fun p => p.1 == k)).map (fun p => p.2)

/-- Dictionary lookup with default, `d.get(k, v)`. -/
def dgetD {α : Type} (d : Dict α) (k : String) (v : α) : α :=
  (dget? d k).getD v

/-- Assignment `d[k] = v`: replaces the value at an existing key, otherwise
appends the binding at the end (Python 2.7+ dicts preserve it this way in
the association-list model). -/
def dinsert {α : Type} (d : Dict α) (k : String) (v : α) : Dict α :=
  if (d.find? (fun p => p.1 == k)).isSome then
    d.map (fun p => if p.1 == k then (k, v) else p)
  else d ++ [(k, v)]

/-- Membership test `k in d`. -/
def dmem {α : Type} (d : Dict α) (k : String) : Bool :=
  (dget? d k).isSome

/-- Python `d.pop(k, default)`: returns the stored value (or the default) and
the dictionary with the key removed. -/
def dpopD {α : Type} (d : Dict α) (k : String) (v : α) : α × Dict α :=
  ((dget? d k).getD v, d.filter (fun p => p.1 != k))

/-- Python `d.pop(k, None)` where the value is discarded. -/
def ddrop {α : Type} (d : Dict α) (k : String) : Dict α :=
  d.filter (fun p => p.1 != k)

/-- Python `d.update(e)`. -/
def dupdate {α : Type} (d e : Dict α) : Dict α :=
  e.foldl (fun acc p => dinsert acc p.1 p.2) d

/-- Python `d.setdefault(k, v)` (result dictionary; the function mutates in
place and the embedded code only uses the mutated dict). -/
def dsetdefault {α : Type} (d : Dict α) (k : String) (v : α) : Dict α :=
  if (dget? d k).isSome then d else d ++ [(k, v)]

/-- Key list of a dictionary. -/
def dkeys {α : Type} (d : Dict α) : List String :=
  d.map (fun p => p.1)

/-- Observable actions of the pipeline: external tool invocations (recorded
with the working directory they run in and their keyword arguments), grompp
invocations (fixed arguments and forwarded unprocessed mdp options recorded
separately), file creations, symbolic links and warnings. -/
inductive Event where
  | toolCall (tool : String) (cwd : String) (args : Dict MdpVal)
  | gromppCall (cwd : String) (fixed : Dict MdpVal) (extra : Dict MdpVal)
  | fileWrite (path : String) (cwd : String)
  | symlink (target linkname : String) (cwd : String)
  | warn (w : WarnKind)
  deriving DecidableEq, Repr

/-- Computations producing a trace of events and either a value or a raised
Python exception; events emitted before the exception are retained, nothing
after a raise is executed. -/
structure ResM (α : Type) where
  events : List Event
  result : Except PyError α
  deriving Repr

instance : Monad ResM where
  pure a := ⟨[], Except.ok a⟩
  bind r f :=
    match r.result with
    | Except.error e => ⟨r.events, Except.error e⟩
    | Except.ok a => ⟨r.events ++ (f a).events, (f a).result⟩

/-- Record one observable event. -/
def emit (e : Event) : ResM Unit := ⟨[e], Except.ok ()⟩

/-- Raise a Python exception. -/
def throwR {α : Type} (e : PyError) : ResM α := ⟨[], Except.error e⟩

/-- Lift an exception-or-value into the trace monad. -/
def liftE {α : Type} (r : Except PyError α) : ResM α := ⟨[], r⟩


/-- Join a possibly relative path onto a directory (os.chdir / os.path.join
restricted to what the claims need). -/
def joinPath (cwd p : String) : String :=
  if p.startsWith "/" then p else cwd ++ "/" ++ p

/-- Model of os.path.realpath on one path: make it absolute against the
current working directory.  Symbolic-link resolution is not modelled; no
claim depends on it. -/
def realpathStr (cwd p : String) : String := joinPath cwd p

/-- Call of the name `realpath` with Python call semantics.  The source file
imports it from os.path (line 107), and os.path.realpath takes exactly one
positional argument; a call with any other arity raises TypeError. -/
def pyRealpath (cwd : String) (args : List String) : Except PyError String :=
  match args with
  | [p] => Except.ok (realpathStr cwd p)
  | _ => Except.error (PyError.typeError "realpath() takes exactly 1 argument")

/-- Model of os.path.dirname (posixpath): the prefix up to the last slash,
with trailing slashes stripped unless the head consists only of slashes. -/
def pyDirname (p : String) : String :=
  let cs := p.data
  let head := (cs.reverse.dropWhile (fun c => c ≠ '/')).reverse
  let head2 :=
    if head ≠ [] ∧ ¬ (head.all (fun c => c = '/')) then
      (head.reverse.dropWhile (fun c => c = '/')).reverse
    else head
  String.mk head2

/-- Python str.lower() restricted to the ASCII strings this module handles,
implemented over the character list so that it evaluates by reduction. -/
def pyStrLower (s : String) : String :=
  String.mk (s.data.map Char.toLower)

/-- Concentration of water at standard conditions in mol per liter; module
constant CONC_WATER = 55.345 (line 126). -/
def CONC_WATER : ℚ := 55345 / 1000

/-- Include directive string built in add_mdp_includes (lines 506-508):
the directories `.`, `..` and the directory of the topology file, each
prefixed with -I and joined by spaces. -/
def mdpIncludeString (topology : String) : String :=
  String.intercalate " " ((["."] ++ [".."] ++ [pyDirname topology]).map (fun d => "-I" ++ d))

/-- Embedding of add_mdp_includes (lines 472-510): when mdp_kwargs is None a
new dictionary is created; the include entry is added with setdefault, so a
pre-existing value is kept; the (mutated) dictionary is returned. -/
def add_mdp_includes (topology : String) (mdp_kwargs : Option (Dict MdpVal)) : Dict MdpVal :=
  let mk := mdp_kwargs.getD []
  dsetdefault mk "include" (MdpVal.str (mdpIncludeString topology))

/-- Embedding of check_mdpargs (lines 383-389): warns (UsageWarning) when the
dictionary of unprocessed mdp arguments is non-empty and returns whether it is
empty. -/
def check_mdpargs (d : Dict MdpVal) : List Event × Bool :=
  ((if d.length > 0 then [Event.warn WarnKind.usage] else []), decide (d.length = 0))

/-- Trace-monad wrapper for check_mdpargs. -/
def check_mdpargsM (d : Dict MdpVal) : ResM Bool :=
  ⟨(check_mdpargs d).1, Except.ok (check_mdpargs d).2⟩

/-- Modelled from the spec: `gromacs.cbook.edit_mdp` is code of this
repository that is not under src/.  Per the spec (Parameter-file editor), it
takes a template parameter file and a mapping of overrides, produces a new
parameter file, and returns any keys it did not recognize.  The template is
abstracted by the list of parameter keys it contains; the result holds exactly
the override entries whose keys are not in the template, verbatim. -/
def edit_mdp (templateKeys : List String) (overrides : Dict MdpVal) : Dict MdpVal :=
  overrides.filter (fun p => !(templateKeys.contains p.1))

/-- Modelled from the spec: `gromacs.utilities.in_dir` is code of this
repository that is not under src/.  Per the spec (Directory-scoped executor),
it runs a block of operations with the process working directory temporarily
switched to the stage directory, and the previous working directory is what
the caller observes afterwards, also when the block raises.  The body receives
the directory it runs in; the second component is the caller-observed working
directory after the block. -/
def in_dir {α : Type} (cwd0 dirname : String) (body : String → ResM α) :
    ResM α × String :=
  (body (joinPath cwd0 dirname), cwd0)

/-- Working directory recorded in an event, when the event is
directory-scoped. -/
def eventCwd (e : Event) : Option String :=
  match e with
  | Event.toolCall _ c _ => some c
  | Event.gromppCall c _ _ => some c
  | Event.fileWrite _ c => some c
  | Event.symlink _ _ c => some c
  | Event.warn _ => none

/-- Check that every directory-scoped event of a trace happened in the given
directory. -/
def cwdEventsOk (evs : List Event) (d : String) : Bool :=
  evs.all (fun e => match eventCwd e with
    | some c => c == d
    | none => true)

/-- Whether an exception-or-value is a value. -/
def isOkB {α : Type} (r : Except PyError α) : Bool :=
  match r with
  | Except.ok _ => true
  | Except.error _ => false

/-- Number of invocations of a given external tool in a trace. -/
def countTool (evs : List Event) (t : String) : ℕ :=
  (evs.filter (fun e => match e with
    | Event.toolCall t2 _ _ => t2 == t
    | _ => false)).length

/-- Whether a trace contains a symbolic-link creation. -/
def hasSymlink (evs : List Event) : Bool :=
  evs.any (fun e => match e with
    | Event.symlink _ _ _ => true
    | _ => false)

/-- Named atom-selection group of an index file. -/
structure NdxGroup where
  name : String
  atoms : Finset ℕ
  deriving DecidableEq

/-- State of the external make_ndx tool: the atom universe of the structure
file and the current list of index groups. -/
structure NdxState where
  allAtoms : Finset ℕ
  groups : List NdxGroup
  deriving DecidableEq

/-- Interactive make_ndx commands used by the source.  They mirror the input
strings sent on lines 227-228 and 236-241: a user selection string
(abstracted by the name and atom set it selects), the renaming command
`name i newname`, the negation command applied to a quoted group name, the
empty command and `q`. -/
inductive NdxCmd where
  | select (name : String) (atoms : Finset ℕ)
  | nameCmd (i : ℕ) (newname : String)
  | negGroup (gname : String)
  | emptyCmd
  | quit
  deriving DecidableEq

/-- Modelled from the spec: semantics of one interactive command of the
external make_ndx tool, the opaque collaborator behind the Index-group
builder of the spec.  A selection appends the selected group; `name i nm`
renames group number i; the negation command appends a group holding every
atom of the system that is not in the named group (set complement, the
tool itself names it with a leading exclamation mark); the empty command
and quit leave the groups unchanged. -/
def ndxStep (st : NdxState) (c : NdxCmd) : NdxState :=
  match c with
  | NdxCmd.select nm a => { st with groups := st.groups ++ [⟨nm, a⟩] }
  | NdxCmd.nameCmd i nm =>
      match st.groups[i]? with
      | some g => { st with groups := st.groups.set i ⟨nm, g.atoms⟩ }
      | none => st
  | NdxCmd.negGroup gn =>
      match st.groups.find? (fun g => g.name == gn) with
      | some g => { st with groups := st.groups ++ [⟨"!" ++ gn, st.allAtoms \ g.atoms⟩] }
      | none => st
  | NdxCmd.emptyCmd => st
  | NdxCmd.quit => st

/-- Run of a sequence of make_ndx commands. -/
def ndxRun (st : NdxState) (cs : List NdxCmd) : NdxState :=
  cs.foldl ndxStep st

/-- Modelled from the spec: one entry of gromacs.cbook.parse_ndxlist, code of
this repository that is not under src/ (make_main_index documents the return
value through it): the name, the group number and the atom count of an index
group, with groups numbered consecutively from 0 in output order. -/
structure ParsedGroup where
  name : String
  nr : ℕ
  natoms : ℕ
  deriving DecidableEq, Repr

/-- Indexed helper for parseNdxlist. -/
def parseNdxAux (i : ℕ) : List NdxGroup → List ParsedGroup
  | [] => []
  | g :: gs => ⟨g.name, i, g.atoms.card⟩ :: parseNdxAux (i + 1) gs

/-- Parsed group list of a make_ndx state (see ParsedGroup). -/
def parseNdxlist (st : NdxState) : List ParsedGroup :=
  parseNdxAux 0 st.groups

/-- Embedding of make_main_index (lines 190-242).  st0 abstracts the group
list the external tool presents initially (from the structure file, or from
oldndx when given); selAtoms abstracts the atom set selected by the user
selection string.  Pass 1 feeds the selection plus an empty command and `q`,
and parses the printed group list; pass 2 renames the last group (number
len(groups)-1) to __main__, negates it into a complement group (group number
last+1) and renames that to __environment__; the parsed list of all resulting
groups is returned. -/
def make_main_index_model (st0 : NdxState) (selection : String) (selAtoms : Finset ℕ)
    (struct ndx : String) (oldndx : Option String) (cwd : String) :
    ResM (List ParsedGroup) := do
  emit (Event.toolCall "make_ndx" cwd
    [("f", MdpVal.str struct),
     ("n", match oldndx with | some s => MdpVal.str s | none => MdpVal.pynone),
     ("o", MdpVal.str ndx),
     ("input", MdpVal.str (selection ++ ";;q"))])
  let st1 := ndxRun st0 [NdxCmd.select selection selAtoms, NdxCmd.emptyCmd, NdxCmd.quit]
  let groups := parseNdxlist st1
  let last := groups.length - 1
  match groups.getLast? with
  | none => throwR PyError.indexError
  | some pg =>
      if last ≠ pg.nr then throwR PyError.assertionError
      else do
        emit (Event.toolCall "make_ndx" cwd
          [("f", MdpVal.str struct), ("n", MdpVal.str ndx), ("o", MdpVal.str ndx),
           ("input", MdpVal.str ("name " ++ toString last ++ " __main__;! \"__main__\";name "
             ++ toString (last + 1) ++ " __environment__;;q"))])
        let st2 := ndxRun st1 [NdxCmd.nameCmd last "__main__",
                               NdxCmd.negGroup "__main__",
                               NdxCmd.nameCmd (last + 1) "__environment__",
                               NdxCmd.emptyCmd, NdxCmd.quit]
        pure (parseNdxlist st2)

/-- Outputs of the external tools that solvate parses, the make_ndx oracle
for the main-index construction, and failure switches for the tool calls
whose errors solvate catches. -/
structure SolvateEnv where
  qtot : ℚ
  owGroups : List ParsedGroup
  qtot2 : ℚ
  mmiState : NdxState
  mmiSelAtoms : Finset ℕ
  mainIndexFails : Bool
  trjFails : Bool
  deriving DecidableEq

/-- Dictionary of parsed groups keyed by name, mirroring the comprehension
`dict([(g[name], g) for g in groups])` (line 325): a later duplicate name
overwrites an earlier one. -/
def groupsByName (gs : List ParsedGroup) : Dict ParsedGroup :=
  gs.foldl (fun d g => dinsert d g.name g) []

/-- Number of extra monovalent ion pairs (line 327):
N_ions = int(N_water * concentration / CONC_WATER). -/
def ionPairs (nWater : ℕ) (concentration : ℚ) : ℤ :=
  pyint ((nWater : ℚ) * concentration / CONC_WATER)

/-- Counter-ion counts (n_cation, n_anion) after lines 332-336: both start at
0; n_anion = int(abs(qtot)) when qtot > 0, n_cation = int(abs(qtot)) when
qtot < 0. -/
def counterIons (qtot : ℚ) : ℤ × ℤ :=
  if 0 < qtot then (0, pyint |qtot|)
  else if qtot < 0 then (pyint |qtot|, 0)
  else (0, 0)

/-- Read of a Python local variable: a read of a name with no binding raises
UnboundLocalError, a subclass of NameError. -/
def pyLocal (name : String) (v : Option ℤ) : ResM ℤ :=
  match v with
  | some x => pure x
  | none => throwR (PyError.nameError name)

/-- Body of solvate inside `with in_dir(dirname)` (lines 305-375).
structure_ and topology are the realpath-resolved input paths, water the
already substituted solvent configuration name.  Failures of editconf,
genbox and the grompp charge computations are not modelled (the source does
not catch them; they would propagate before the part the claims are about). -/
def solvateBody (env : SolvateEnv) (structure_ topology : String)
    (distance : ℚ) (boxtype : String) (concentration : ℚ)
    (cation anion water ndx mainselection : String) (cwd : String) :
    ResM ℚ := do
  emit (Event.toolCall "editconf" cwd
    [("f", MdpVal.str structure_), ("o", MdpVal.str "boxed.gro"),
     ("bt", MdpVal.str boxtype), ("d", MdpVal.num distance)])
  emit (Event.toolCall "genbox" cwd
    [("p", MdpVal.str topology), ("cp", MdpVal.str "boxed.gro"),
     ("cs", MdpVal.str water), ("o", MdpVal.str "solvated.gro")])
  emit (Event.fileWrite "none.mdp" cwd)
  emit (Event.toolCall "grompp_qtot" cwd
    [("f", MdpVal.str "none.mdp"), ("o", MdpVal.str "topol.tpr"),
     ("c", MdpVal.str "solvated.gro"), ("p", MdpVal.str topology)])
  let qtot := env.qtot
  let N_ions ← (if concentration ≠ 0 then do
      emit (Event.toolCall "make_ndx" cwd
        [("f", MdpVal.str "topol.tpr"), ("o", MdpVal.str "ow.ndx"),
         ("input", MdpVal.str "keep 0;del 0;a OW*;name 0 OW;;q")])
      match dget? (groupsByName env.owGroups) "OW" with
      | some g => pure (ionPairs g.natoms concentration)
      | none => throwR (PyError.keyError "OW")
    else pure (0 : ℤ))
  let n_cation : Option ℤ := some (counterIons qtot).1
  let n_anion : Option ℤ := some (counterIons qtot).2
  -- the name n_anions is never assigned anywhere in the function
  let n_anions : Option ℤ := none
  -- line 338: n_cation += N_ions
  let nc0 ← pyLocal "n_cation" n_cation
  let n_cationV := nc0 + N_ions
  -- line 339 reads the name n_anions: the source says `n_anions += N_ions`
  -- (the write-back would rebind n_anions, but nothing below reads it)
  let na0 ← pyLocal "n_anions" n_anions
  let _n_anionsV := na0 + N_ions
  -- line 341: if n_cation != 0 or n_anion != 0
  let naOrig ← pyLocal "n_anion" n_anion
  (if n_cationV ≠ 0 ∨ naOrig ≠ 0 then
    emit (Event.toolCall "genion" cwd
      [("s", MdpVal.str "topol.tpr"), ("o", MdpVal.str "ionized.gro"),
       ("p", MdpVal.str topology), ("pname", MdpVal.str cation),
       ("nname", MdpVal.str anion), ("np", MdpVal.num (n_cationV : ℚ)),
       ("nn", MdpVal.num (naOrig : ℚ)), ("input", MdpVal.str "SOL")])
  else do
    -- fake ionized file: remove a stale one, then symlink (lines 346-352)
    emit (Event.symlink "solvated.gro" "ionized.gro" cwd))
  emit (Event.toolCall "grompp_qtot" cwd
    [("f", MdpVal.str "none.mdp"), ("o", MdpVal.str "ionized.tpr"),
     ("c", MdpVal.str "ionized.gro"), ("p", MdpVal.str topology)])
  let qtotF := env.qtot2
  (if |qtotF| > 1 / 10000 then emit (Event.warn WarnKind.badParameter) else pure ())
  -- make main index (lines 362-368), GromacsError is caught and warned about
  (if env.mainIndexFails then emit (Event.warn WarnKind.gromacsFailure)
   else do
     let _ ← make_main_index_model env.mmiState mainselection env.mmiSelAtoms
       "ionized.tpr" ndx none cwd
     pure ())
  -- compact visualization pdb (lines 370-375), GromacsError caught and warned
  emit (Event.toolCall "trjconv" cwd
    [("f", MdpVal.str "ionized.gro"), ("s", MdpVal.str "ionized.tpr"),
     ("o", MdpVal.str "compact.pdb"), ("n", MdpVal.str ndx)])
  (if env.trjFails then emit (Event.warn WarnKind.gromacsFailure) else pure ())
  pure qtotF

/-- Embedding of solvate (lines 245-380): realpath-resolve the inputs, run
the body inside the stage directory, then build the result dictionary; the
result dictionary calls realpath with two arguments (lines 377-378). -/
def solvateModel (cwd0 : String) (env : SolvateEnv)
    (struct top : String) (distance : ℚ) (boxtype : String)
    (concentration : ℚ) (cation anion water ndx mainselection dirname : String) :
    ResM (Dict MdpVal) × String :=
  let structure_ := realpathStr cwd0 struct
  let topology := realpathStr cwd0 top
  -- line 292: include keyword dictionary for the none.mdp file
  let _mdpk := add_mdp_includes topology none
  -- line 294: water name substitution
  let water2 := if pyStrLower water = "spc" ∨ pyStrLower water = "spce" then "spc216" else water
  let bodyPair := in_dir cwd0 dirname (fun cwd =>
    solvateBody env structure_ topology distance boxtype concentration
      cation anion water2 ndx mainselection cwd)
  (do
    let qtotF ← bodyPair.1
    let sPath ← liftE (pyRealpath bodyPair.2 [dirname, "ionized.gro"])
    let nPath ← liftE (pyRealpath bodyPair.2 [dirname, ndx])
    pure [("qtot", MdpVal.num qtotF), ("struct", MdpVal.str sPath),
          ("ndx", MdpVal.str nPath), ("mainselection", MdpVal.str mainselection)],
   bodyPair.2)

/-- Failure switch for the single external call of topology. -/
structure TopEnv where
  pdb2gmxOk : Bool
  deriving DecidableEq, Repr

/-- Embedding of topology (lines 147-184): run pdb2gmx and copy the topology
file inside the stage directory, then build the return dictionary; the
return dictionary calls realpath with two arguments (line 184). -/
def topologyModel (cwd0 : String) (env : TopEnv)
    (struct protein top dirname : String) : ResM (Dict MdpVal) × String :=
  let structure_ := realpathStr cwd0 struct
  let new_struct := protein ++ ".pdb"
  let posres := protein ++ "_posres.itp"
  let bodyPair := in_dir cwd0 dirname (fun cwd => do
    emit (Event.toolCall "pdb2gmx" cwd
      [("f", MdpVal.str structure_), ("o", MdpVal.str new_struct),
       ("p", MdpVal.str "tmp.top"), ("i", MdpVal.str posres)])
    if env.pdb2gmxOk then
      emit (Event.fileWrite top cwd)
    else
      throwR (PyError.gromacsError "pdb2gmx failed"))
  (do
    let _ ← bodyPair.1
    let tPath ← liftE (pyRealpath bodyPair.2 [dirname, top])
    let sPath ← liftE (pyRealpath bodyPair.2 [dirname, new_struct])
    pure [("top", MdpVal.str tPath), ("struct", MdpVal.str sPath)],
   bodyPair.2)

/-- Outcome of an attempted external run: it completed, or it raised an
exception (OSError when the binary is not found, AttributeError when the
tool wrapper attribute does not exist, or a tool-reported error). -/
inductive RunOutcome where
  | ok
  | raises (e : PyError)
  deriving DecidableEq, Repr

/-- Tool outcomes for energy_minimize: the template keys for edit_mdp,
whether grompp succeeds, the outcome of the mdrun_d attempt and of the
fallback mdrun attempt, and whether em.pdb exists afterwards. -/
structure EmEnv where
  templKeys : List String
  gromppOk : Bool
  mdrunD : RunOutcome
  mdrun : RunOutcome
  emPdbExists : Bool
  deriving DecidableEq, Repr

/-- Fixed mdrun argument set (line 453):
dict(v=True, stepout=10, deffnm=em, c=em.pdb). -/
def mdrunArgs : Dict MdpVal :=
  [("v", MdpVal.bool true), ("stepout", MdpVal.num 10),
   ("deffnm", MdpVal.str "em"), ("c", MdpVal.str "em.pdb")]

/-- Keyword preparation of energy_minimize (lines 429-440): drop the chained
ndx entry, pop mainselection (default the quoted Protein) and qtot (default
0), and add the include directories to the remaining entries; results are
(mainselection value, qtot value, mdp keyword dictionary). -/
def emPrep (topology : String) (kwargs : Dict MdpVal) :
    MdpVal × MdpVal × Dict MdpVal :=
  let kwargs1 := ddrop kwargs "ndx"
  let msel := dpopD kwargs1 "mainselection" (MdpVal.str "\"Protein\"")
  let qt := dpopD msel.2 "qtot" (MdpVal.num 0)
  (msel.1, qt.1, add_mdp_includes topology (some qt.2))

/-- Embedding of energy_minimize (lines 391-470): pop the chained keywords,
add the include directories, then inside the stage directory edit the mdp
template, check the leftover arguments, run grompp with them, run mdrun_d
falling back to mdrun on AttributeError or OSError, and fail with
GromacsError when em.pdb was not produced. -/
def energyMinimizeModel (cwd0 : String) (env : EmEnv)
    (struct top dirname : String) (kwargs : Dict MdpVal) :
    ResM (Dict MdpVal) × String :=
  let structure_ := realpathStr cwd0 struct
  let topology := realpathStr cwd0 top
  let prep := emPrep topology kwargs
  let kwargs4 := prep.2.2
  let warnQtot : List Event :=
    if prep.2.1 ≠ MdpVal.num 0 then [Event.warn WarnKind.badParameter] else []
  let bodyPair := in_dir cwd0 dirname (fun cwd => do
    let unprocessed := edit_mdp env.templKeys kwargs4
    emit (Event.fileWrite "em.mdp" cwd)
    let _ ← check_mdpargsM unprocessed
    emit (Event.gromppCall cwd
      [("f", MdpVal.str "em.mdp"), ("o", MdpVal.str "em.tpr"),
       ("c", MdpVal.str structure_), ("p", MdpVal.str topology)] unprocessed)
    if env.gromppOk then do
      (match env.mdrunD with
       | RunOutcome.ok => emit (Event.toolCall "mdrun_d" cwd mdrunArgs)
       | RunOutcome.raises e =>
           if e = PyError.attributeError ∨ e = PyError.osError then do
             emit (Event.warn WarnKind.autoCorrection)
             emit (Event.toolCall "mdrun" cwd mdrunArgs)
             (match env.mdrun with
              | RunOutcome.ok => pure ()
              | RunOutcome.raises e2 => throwR e2)
           else throwR e)
      if env.emPdbExists then
        pure (realpathStr cwd "em.pdb")
      else
        throwR (PyError.gromacsError "Energy minimized system NOT produced.")
    else throwR (PyError.gromacsError "grompp failed"))
  (do
    let _ ← (⟨warnQtot, Except.ok ()⟩ : ResM Unit)
    let final_struct ← bodyPair.1
    pure [("struct", MdpVal.str final_struct), ("top", MdpVal.str topology),
          ("mainselection", prep.1)],
   bodyPair.2)

/-- Python value.lower() on an mdp dictionary entry: only string values have
the method, any other value raises AttributeError. -/
def mdpLower (v : MdpVal) : Except PyError String :=
  match v with
  | MdpVal.str s => Except.ok (pyStrLower s)
  | _ => Except.error PyError.attributeError

/-- Atom-count dictionary
`dict([(g[name], float(g[natoms])) for g in groups])` (line 563). -/
def natomsDict (groups : List ParsedGroup) : Dict ℚ :=
  groups.foldl (fun d g => dinsert d g.name ((g.natoms : ℚ))) []

/-- Ratio x = natoms[__main__] / natoms[__environment__] (lines 564-574):
the KeyError of a missing group is caught and x is forced to 0 (second
component true when the missing-group warning fires); a float division by
zero raises ZeroDivisionError, which the source does not catch. -/
def computeX (groups : List ParsedGroup) : Except PyError (ℚ × Bool) :=
  match dget? (natomsDict groups) "__main__", dget? (natomsDict groups) "__environment__" with
  | some m, some e =>
      if e = 0 then Except.error PyError.zeroDivisionError
      else Except.ok (m / e, false)
  | _, _ => Except.ok (0, true)

/-- The x < 0.1 override (lines 575-587): pop tau_t (default 0.1) and ref_t
(default 300), couple everything in one group by setting tc-grps to System,
and re-insert the popped tau_t and ref_t for that single group. -/
def tcouplAdjust (p : Dict MdpVal) (x : ℚ) : Dict MdpVal :=
  if x < 1 / 10 then
    let tau := dpopD p "tau_t" (MdpVal.num (1 / 10))
    let ref := dpopD tau.2 "ref_t" (MdpVal.num 300)
    dinsert (dinsert (dinsert ref.2 "tc-grps" (MdpVal.str "System")) "tau_t" tau.1) "ref_t" ref.1
  else p

/-- The automatic T-coupling adjustment block (lines 557-588), run inside the
stage directory: Tcoupl is read from the parameters and lowercased first;
when it is not the string no and mainselection is given, make_main_index
builds the index file, x is computed from the parsed groups and the x < 0.1
override is applied; the result is the adjusted parameters together with the
index file to use (realpath of the fresh index inside the branch, the
incoming index otherwise). -/
def tcouplSection (P0 : Dict MdpVal) (mainselection : Option String)
    (st0 : NdxState) (selAtoms : Finset ℕ) (structure_ mainindex : String)
    (index : Option String) (cwd : String) :
    ResM (Dict MdpVal × Option String) := do
  let tc ← liftE (mdpLower (dgetD P0 "Tcoupl" (MdpVal.str "")))
  match mainselection with
  | none => pure (P0, index)
  | some msel =>
      if tc = "no" then pure (P0, index)
      else do
        let groups ← make_main_index_model st0 msel selAtoms structure_ mainindex index cwd
        let xw ← liftE (computeX groups)
        (if xw.2 then emit (Event.warn WarnKind.autoCorrection) else pure ())
        let P1 := tcouplAdjust P0 xw.1
        (if xw.1 < 1 / 10 then emit (Event.warn WarnKind.autoCorrection) else pure ())
        pure (P1, some (realpathStr cwd mainindex))

/-- The Tcoupl == no and Pcoupl == no parameter blanking (lines 589-596). -/
def couplBlank (p : Dict MdpVal) : Except PyError (Dict MdpVal) := do
  let tc ← mdpLower (dgetD p "Tcoupl" (MdpVal.str ""))
  let p1 :=
    if tc = "no" then
      dinsert (dinsert (dinsert p "tc-grps" (MdpVal.str "")) "tau_t" (MdpVal.str ""))
        "ref_t" (MdpVal.str "")
    else p
  let pc ← mdpLower (dgetD p1 "Pcoupl" (MdpVal.str ""))
  let p2 :=
    if pc = "no" then
      dinsert (dinsert (dinsert p1 "tau_p" (MdpVal.str "")) "ref_p" (MdpVal.str ""))
        "compressibility" (MdpVal.str "")
    else p1
  pure p2

/-- nsteps = int(float(runtime)/float(dt)) (line 536); dt = 0 raises
ZeroDivisionError as Python float division would. -/
def nstepsCalc (runtime dt : ℚ) : Except PyError ℤ :=
  if dt = 0 then Except.error PyError.zeroDivisionError
  else Except.ok (pyint (runtime / dt))

/-- SGE job name fixing (lines 543-549): GMX_MD when None; a name whose
first character is not a letter is prefixed with md_ under an
AutoCorrectionWarning; taking the first character of an empty name raises
IndexError. -/
def fixSgename (sgename : Option String) : ResM String :=
  match sgename with
  | none => pure "GMX_MD"
  | some s =>
      match s.data with
      | [] => throwR PyError.indexError
      | c :: _ =>
          if c.isAlpha then pure s
          else do
            emit (Event.warn WarnKind.autoCorrection)
            pure ("md_" ++ s)

/-- Oracle environment for _setup_MD: the template parameter keys for
edit_mdp, the make_ndx oracle used when the T-coupling branch builds the
index file, and whether grompp succeeds. -/
structure MDEnv where
  templKeys : List String
  ndxState : NdxState
  selAtoms : Finset ℕ
  gromppOk : Bool
  deriving DecidableEq

/-- Return dictionary of _setup_MD (lines 607-614): the five fixed entries,
updated with the extra mdp keyword arguments, with the define key removed
afterwards so that -DPOSRES does not stay for a following run. -/
def setupMDret (cwd0 dirname final_structure topology : String)
    (indexF : Option String) (sge : String) (mainselection : Option String)
    (mdp_kwargs : Dict MdpVal) : Dict MdpVal :=
  let ret : Dict MdpVal :=
    [("struct", MdpVal.str (realpathStr cwd0 (dirname ++ "/" ++ final_structure))),
     ("top", MdpVal.str topology),
     ("ndx", match indexF with | some s => MdpVal.str s | none => MdpVal.pynone),
     ("sge", MdpVal.str sge),
     ("mainselection", match mainselection with | some s => MdpVal.str s | none => MdpVal.pynone)]
  ddrop (dupdate ret mdp_kwargs) "define"

/-- Body of _setup_MD inside `with in_dir(dirname)` (lines 556-602): the
T-coupling adjustment, the parameter blanking, the mdp template edit, the
leftover-argument check, grompp with the leftover arguments forwarded, and
the queuing-script edit; returns the index file recorded for the result. -/
def setupMDBody (env : MDEnv) (P0 : Dict MdpVal) (mainselection : Option String)
    (structure_ topology mdpName tpr mainindex sge : String)
    (index : Option String) (cwd : String) : ResM (Option String) := do
  let pi ← tcouplSection P0 mainselection env.ndxState env.selAtoms structure_ mainindex index cwd
  let P2 ← liftE (couplBlank pi.1)
  let unprocessed := edit_mdp env.templKeys P2
  emit (Event.fileWrite mdpName cwd)
  let _ ← check_mdpargsM unprocessed
  emit (Event.gromppCall cwd
    [("f", MdpVal.str mdpName), ("p", MdpVal.str topology),
     ("c", MdpVal.str structure_),
     ("n", match pi.2 with | some s => MdpVal.str s | none => MdpVal.pynone),
     ("o", MdpVal.str tpr)] unprocessed)
  if env.gromppOk then do
    emit (Event.fileWrite sge cwd)
    pure pi.2
  else throwR (PyError.gromacsError "grompp failed")

/-- Embedding of _setup_MD (lines 512-615). -/
def setupMDModel (cwd0 : String) (env : MDEnv) (dirname deffnm : String)
    (struct : Option String) (top : String) (ndx : Option String)
    (mainselection : Option String) (sge : String) (sgename : Option String)
    (dt runtime : ℚ) (mdp_kwargs : Dict MdpVal) :
    ResM (Dict MdpVal) × String :=
  match struct with
  | none => (throwR (PyError.valueError "struct must be set to a input structure"), cwd0)
  | some st =>
    let structure_ := realpathStr cwd0 st
    let topology := realpathStr cwd0 top
    -- realpath(None) raises AttributeError, caught and turned into None (lines 528-531)
    let index : Option String := ndx.map (realpathStr cwd0)
    let mdpName := deffnm ++ ".mdp"
    let tpr := deffnm ++ ".tpr"
    let mainindex := deffnm ++ ".ndx"
    let final_structure := deffnm ++ ".gro"
    let pre : ResM ℤ := do
      let nsteps ← liftE (nstepsCalc runtime dt)
      let _sgenameV ← fixSgename sgename
      pure nsteps
    match pre.result with
    | Except.error e => (⟨pre.events, Except.error e⟩, cwd0)
    | Except.ok nsteps =>
      let P0 := add_mdp_includes topology (some (dupdate
        [("nsteps", MdpVal.num (nsteps : ℚ)), ("dt", MdpVal.num dt)] mdp_kwargs))
      let bodyPair := in_dir cwd0 dirname
        (setupMDBody env P0 mainselection structure_ topology mdpName tpr mainindex sge index)
      (do
        let _ ← (⟨pre.events, Except.ok ()⟩ : ResM Unit)
        let indexF ← bodyPair.1
        pure (setupMDret cwd0 dirname final_structure topology indexF sge mainselection mdp_kwargs),
       bodyPair.2)

-- ===================================================================
-- Helper lemmas
-- ===================================================================

theorem dget?_append_right {α : Type} (xs ys : List (String × α)) (k : String)
    (h : dget? xs k = none) : dget? (xs ++ ys) k = dget? ys k := by
  induction xs with
  | nil => simp
  | cons p xs ih =>
      simp only [dget?, List.find?] at h ⊢
      cases hpk : (p.1 == k) with
      | true => simp [hpk] at h
      | false =>
          simp only [hpk] at h ⊢
          exact ih h

theorem dget?_singleton_self {α : Type} (k : String) (v : α) :
    dget? ([(k, v)] : Dict α) k = some v := by
  simp [dget?]

theorem dget?_filter_ne {α : Type} (d : Dict α) (k k' : String) (h : k' ≠ k) :
    dget? (d.filter (fun p => p.1 != k)) k' = dget? d k' := by
  induction d with
  | nil => rfl
  | cons p d ih =>
      by_cases hp : p.1 = k
      · have hne : (p.1 == k') = false := by
          simp [hp]
          exact fun hk => absurd hk.symm h
        simp only [dget?, List.find?, List.filter] at ih ⊢
        have : (p.1 != k) = false := by simp [hp]
        rw [this]
        simp only [hne]
        exact ih
      · simp only [dget?, List.filter] at ih ⊢
        have : (p.1 != k) = true := by simp [hp]
        rw [this]
        by_cases hq : p.1 = k'
        · simp [List.find?, hq]
        · have : (p.1 == k') = false := by simp [hq]
          simp only [List.find?, this]
          exact ih

theorem dget?_filter_self {α : Type} (d : Dict α) (k : String) :
    dget? (d.filter (fun p => p.1 != k)) k = none := by
  induction d with
  | nil => rfl
  | cons p d ih =>
      by_cases hp : p.1 = k
      · simp only [List.filter]
        have : (p.1 != k) = false := by simp [hp]
        rw [this]
        exact ih
      · simp only [List.filter]
        have h1 : (p.1 != k) = true := by simp [hp]
        rw [h1]
        simp only [dget?, List.find?]
        have : (p.1 == k) = false := by simp [hp]
        rw [this]
        exact ih

theorem dget?_map_replace {α : Type} (d : Dict α) (k : String) (v : α)
    (h : dget? d k ≠ none) :
    dget? (d.map (fun p => if p.1 == k then (k, v) else p)) k = some v := by
  induction d with
  | nil => simp [dget?] at h
  | cons q d ih =>
      cases hq : (q.1 == k) with
      | true =>
          simp only [List.map, hq, if_true]
          simp [dget?, List.find?]
      | false =>
          have hq' : (if (q.1 == k) = true then (k, v) else q) = q := by simp [hq]
          simp only [List.map, hq']
          simp only [dget?, List.find?, hq] at h ⊢
          exact ih h

theorem dget?_dinsert_self {α : Type} (d : Dict α) (k : String) (v : α) :
    dget? (dinsert d k v) k = some v := by
  unfold dinsert
  cases hf : (d.find? (fun p => p.1 == k)) with
  | none =>
      simp only [hf, Option.isSome_none, Bool.false_eq_true, if_false]
      have : dget? d k = none := by simp [dget?, hf]
      rw [dget?_append_right d _ k this]
      exact dget?_singleton_self k v
  | some p =>
      simp only [hf, Option.isSome_some, if_true]
      apply dget?_map_replace
      simp [dget?, hf]

theorem dget?_append_single_ne {α : Type} (d : Dict α) (k k2 : String) (v : α)
    (h : k2 ≠ k) : dget? (d ++ [(k, v)]) k2 = dget? d k2 := by
  induction d with
  | nil =>
      have : (k == k2) = false := by
        simp
        exact fun hk => absurd hk.symm h
      simp [dget?, List.find?, this]
  | cons q d ih =>
      simp only [dget?, List.cons_append, List.find?] at ih ⊢
      cases hq : (q.1 == k2) with
      | true => rfl
      | false => exact ih

theorem dget?_map_replace_ne {α : Type} (d : Dict α) (k k2 : String) (v : α)
    (h : k2 ≠ k) :
    dget? (d.map (fun p => if p.1 == k then (k, v) else p)) k2 = dget? d k2 := by
  induction d with
  | nil => rfl
  | cons q d ih =>
      cases hq : (q.1 == k) with
      | true =>
          have hqk : q.1 = k := by simpa using hq
          have h1 : (k == k2) = false := by
            simp
            exact fun hk => absurd hk.symm h
          have h2 : (q.1 == k2) = false := by
            simp [hqk]
            exact fun hk => absurd hk.symm h
          simp only [List.map, hq, if_true]
          simp only [dget?, List.find?, h1, h2] at ih ⊢
          exact ih
      | false =>
          have hq' : (if (q.1 == k) = true then (k, v) else q) = q := by simp [hq]
          simp only [List.map, hq']
          simp only [dget?, List.find?] at ih ⊢
          cases hq2 : (q.1 == k2) with
          | true => rfl
          | false => exact ih

theorem dget?_dinsert_ne {α : Type} (d : Dict α) (k k2 : String) (v : α)
    (h : k2 ≠ k) : dget? (dinsert d k v) k2 = dget? d k2 := by
  unfold dinsert
  cases hf : (d.find? (fun p => p.1 == k)) with
  | none =>
      simp only [hf, Option.isSome_none, Bool.false_eq_true, if_false]
      exact dget?_append_single_ne d k k2 v h
  | some p =>
      simp only [hf, Option.isSome_some, if_true]
      exact dget?_map_replace_ne d k k2 v h

theorem dmem_dinsert {α : Type} (d : Dict α) (k k2 : String) (v : α) :
    dmem (dinsert d k v) k2 = (dmem d k2 || (k2 == k)) := by
  by_cases h : k2 = k
  · subst h
    simp [dmem, dget?_dinsert_self]
  · have : (k2 == k) = false := by simpa using h
    rw [dmem, dget?_dinsert_ne d k k2 v h, this]
    simp [dmem]

theorem dmem_dupdate {α : Type} (e d : Dict α) (k : String) :
    dmem (dupdate d e) k = (dmem d k || dmem e k) := by
  induction e generalizing d with
  | nil => simp [dupdate, dmem, dget?]
  | cons p e ih =>
      show dmem (dupdate (dinsert d p.1 p.2) e) k = _
      rw [ih]
      rw [dmem_dinsert]
      by_cases h : k = p.1
      · subst h
        simp [dmem, dget?, List.find?]
      · have hb : (k == p.1) = false := by simpa using h
        have hb2 : (p.1 == k) = false := by
          simp
          exact fun hk => absurd hk.symm h
        simp only [hb, Bool.or_false]
        congr 1
        simp [dmem, dget?, List.find?, hb2]

theorem dmem_ddrop_self {α : Type} (d : Dict α) (k : String) :
    dmem (ddrop d k) k = false := by
  simp [dmem, ddrop, dget?_filter_self]

theorem dmem_ddrop_ne {α : Type} (d : Dict α) (k k2 : String) (h : k2 ≠ k) :
    dmem (ddrop d k) k2 = dmem d k2 := by
  simp [dmem, ddrop, dget?_filter_ne d k k2 h]

@[simp] theorem bind_ok {α β : Type} (ev : List Event) (a : α) (f : α → ResM β) :
    (Bind.bind (⟨ev, Except.ok a⟩ : ResM α) f) = ⟨ev ++ (f a).events, (f a).result⟩ := rfl

@[simp] theorem bind_err {α β : Type} (ev : List Event) (e : PyError) (f : α → ResM β) :
    (Bind.bind (⟨ev, Except.error e⟩ : ResM α) f) = (⟨ev, Except.error e⟩ : ResM β) := rfl

@[simp] theorem pure_res {α : Type} (a : α) : (Pure.pure a : ResM α) = ⟨[], Except.ok a⟩ := rfl

@[simp] theorem emit_def (e : Event) : emit e = ⟨[e], Except.ok ()⟩ := rfl

@[simp] theorem throwR_def {α : Type} (e : PyError) : (throwR e : ResM α) = ⟨[], Except.error e⟩ := rfl

@[simp] theorem liftE_def {α : Type} (r : Except PyError α) : liftE r = (⟨[], r⟩ : ResM α) := rfl

theorem parseNdxAux_append (i : ℕ) (xs ys : List NdxGroup) :
    parseNdxAux i (xs ++ ys) = parseNdxAux i xs ++ parseNdxAux (i + xs.length) ys := by
  induction xs generalizing i with
  | nil => simp [parseNdxAux]
  | cons x xs ih =>
      simp only [List.cons_append, parseNdxAux, List.append_eq]
      rw [ih (i + 1)]
      have h2 : i + 1 + xs.length = i + (x :: xs).length := by
        simp [List.length_cons]
        omega
      rw [h2]

theorem parseNdxAux_length (i : ℕ) (xs : List NdxGroup) :
    (parseNdxAux i xs).length = xs.length := by
  induction xs generalizing i with
  | nil => rfl
  | cons x xs ih => simp [parseNdxAux, ih]

theorem getElem?_concat_len {α : Type} (xs : List α) (g : α) :
    (xs ++ [g])[xs.length]? = some g := by
  induction xs with
  | nil => rfl
  | cons x xs ih => simp [ih]

theorem set_concat_len {α : Type} (xs : List α) (g g2 : α) :
    (xs ++ [g]).set xs.length g2 = xs ++ [g2] := by
  induction xs with
  | nil => rfl
  | cons x xs ih => simp [List.set, ih]

theorem find?_concat_of_none {α : Type} (xs : List α) (g : α) (p : α → Bool)
    (h : xs.find? p = none) (hg : p g = true) : (xs ++ [g]).find? p = some g := by
  induction xs with
  | nil => simp [List.find?, hg]
  | cons x xs ih =>
      simp only [List.find?] at h ⊢
      cases hx : p x with
      | true => simp [hx] at h
      | false =>
          simp only [hx] at h ⊢
          exact ih h

theorem bind_eq_of_ok {α β : Type} {r : ResM α} {a : α} (hr : r.result = Except.ok a)
    (f : α → ResM β) :
    Bind.bind r f = ⟨r.events ++ (f a).events, (f a).result⟩ := by
  show (match r.result with
    | Except.error e => (⟨r.events, Except.error e⟩ : ResM β)
    | Except.ok a => ⟨r.events ++ (f a).events, (f a).result⟩) = _
  rw [hr]

theorem bind_eq_of_err {α β : Type} {r : ResM α} {e : PyError} (hr : r.result = Except.error e)
    (f : α → ResM β) :
    Bind.bind r f = ⟨r.events, Except.error e⟩ := by
  show (match r.result with
    | Except.error e => (⟨r.events, Except.error e⟩ : ResM β)
    | Except.ok a => ⟨r.events ++ (f a).events, (f a).result⟩) = _
  rw [hr]

theorem cwdEventsOk_append (a b : List Event) (d : String) :
    cwdEventsOk (a ++ b) d = (cwdEventsOk a d && cwdEventsOk b d) := by
  simp [cwdEventsOk, List.all_append]

theorem cwdEventsOk_bind {α β : Type} (r : ResM α) (f : α → ResM β) (d : String)
    (hr : cwdEventsOk r.events d = true) (hf : ∀ a, cwdEventsOk (f a).events d = true) :
    cwdEventsOk (Bind.bind r f).events d = true := by
  have hb : Bind.bind r f = (match r.result with
    | Except.error e => (⟨r.events, Except.error e⟩ : ResM β)
    | Except.ok a => ⟨r.events ++ (f a).events, (f a).result⟩) := rfl
  rw [hb]
  cases hres : r.result with
  | error e => simpa using hr
  | ok a =>
      simp only []
      rw [cwdEventsOk_append]
      rw [hr, hf a]
      rfl

theorem cwdEventsOk_ite {α : Type} (c : Prop) [Decidable c] (t e : ResM α) (d : String)
    (ht : cwdEventsOk t.events d = true) (he : cwdEventsOk e.events d = true) :
    cwdEventsOk (if c then t else e).events d = true := by
  split
  · exact ht
  · exact he

theorem cwdEventsOk_pyLocal (n : String) (v : Option ℤ) (d : String) :
    cwdEventsOk (pyLocal n v).events d = true := by
  cases v <;> rfl

theorem cwdEventsOk_check_mdpargsM (dd : Dict MdpVal) (d : String) :
    cwdEventsOk (check_mdpargsM dd).events d = true := by
  show cwdEventsOk (check_mdpargs dd).1 d = true
  unfold check_mdpargs
  split <;> rfl

theorem cwdEventsOk_mmi (st0 : NdxState) (selection : String) (a : Finset ℕ)
    (struct ndx : String) (oldndx : Option String) (cwd : String) :
    cwdEventsOk (make_main_index_model st0 selection a struct ndx oldndx cwd).events cwd = true := by
  unfold make_main_index_model
  apply cwdEventsOk_bind
  · simp [cwdEventsOk, eventCwd]
  · intro _
    dsimp only
    split
    · rfl
    · split
      · rfl
      · apply cwdEventsOk_bind
        · simp [cwdEventsOk, eventCwd]
        · intro _
          rfl

theorem cwdEventsOk_solvateBody (env : SolvateEnv) (structure_ topology : String)
    (distance : ℚ) (boxtype : String) (concentration : ℚ)
    (cation anion water ndx mainselection cwd : String) :
    cwdEventsOk (solvateBody env structure_ topology distance boxtype concentration
      cation anion water ndx mainselection cwd).events cwd = true := by
  unfold solvateBody
  repeat' first
    | apply cwdEventsOk_pyLocal
    | apply cwdEventsOk_check_mdpargsM
    | apply cwdEventsOk_mmi
    | apply cwdEventsOk_bind
    | apply cwdEventsOk_ite
    | intro _
    | split
    | simp [cwdEventsOk, eventCwd]

theorem cwdEventsOk_emModel (cwd0 : String) (env : EmEnv)
    (struct top dirname : String) (kwargs : Dict MdpVal) :
    cwdEventsOk (energyMinimizeModel cwd0 env struct top dirname kwargs).1.events
      (joinPath cwd0 dirname) = true := by
  unfold energyMinimizeModel in_dir
  dsimp only
  repeat' first
    | apply cwdEventsOk_pyLocal
    | apply cwdEventsOk_check_mdpargsM
    | apply cwdEventsOk_mmi
    | apply cwdEventsOk_bind
    | apply cwdEventsOk_ite
    | intro _
    | split
    | simp [cwdEventsOk, eventCwd]

theorem cwdEventsOk_fixSgename (s : Option String) (d : String) :
    cwdEventsOk (fixSgename s).events d = true := by
  unfold fixSgename
  repeat' first
    | intro _
    | split
    | rfl

theorem cwdEventsOk_tcoupl (P0 : Dict MdpVal) (mainselection : Option String)
    (st0 : NdxState) (selAtoms : Finset ℕ) (structure_ mainindex : String)
    (index : Option String) (cwd : String) :
    cwdEventsOk (tcouplSection P0 mainselection st0 selAtoms structure_ mainindex
      index cwd).events cwd = true := by
  unfold tcouplSection
  repeat' first
    | apply cwdEventsOk_mmi
    | apply cwdEventsOk_bind
    | apply cwdEventsOk_ite
    | intro _
    | split
    | simp [cwdEventsOk, eventCwd]

theorem cwdEventsOk_setupMDModel (cwd0 : String) (env : MDEnv) (dirname deffnm : String)
    (struct : Option String) (top : String) (ndx : Option String)
    (mainselection : Option String) (sge : String) (sgename : Option String)
    (dt runtime : ℚ) (mdp_kwargs : Dict MdpVal) :
    cwdEventsOk (setupMDModel cwd0 env dirname deffnm struct top ndx mainselection
      sge sgename dt runtime mdp_kwargs).1.events (joinPath cwd0 dirname) = true := by
  unfold setupMDModel setupMDBody in_dir
  dsimp only
  repeat' first
    | apply cwdEventsOk_fixSgename
    | apply cwdEventsOk_tcoupl
    | apply cwdEventsOk_check_mdpargsM
    | apply cwdEventsOk_bind
    | apply cwdEventsOk_ite
    | intro _
    | split
    | simp [cwdEventsOk, eventCwd]

theorem setupMDModel_cwd_restored (cwd0 : String) (env : MDEnv) (dirname deffnm : String)
    (struct : Option String) (top : String) (ndx : Option String)
    (mainselection : Option String) (sge : String) (sgename : Option String)
    (dt runtime : ℚ) (mdp_kwargs : Dict MdpVal) :
    (setupMDModel cwd0 env dirname deffnm struct top ndx mainselection
      sge sgename dt runtime mdp_kwargs).2 = cwd0 := by
  unfold setupMDModel in_dir
  dsimp only
  repeat' first
    | intro _
    | split
    | rfl

theorem cwdEventsOk_topologyModel (cwd0 : String) (env : TopEnv)
    (struct protein top dirname : String) :
    cwdEventsOk (topologyModel cwd0 env struct protein top dirname).1.events
      (joinPath cwd0 dirname) = true := by
  unfold topologyModel in_dir
  dsimp only
  repeat' first
    | apply cwdEventsOk_bind
    | apply cwdEventsOk_ite
    | intro _
    | split
    | simp [cwdEventsOk, eventCwd]

theorem cwdEventsOk_solvateModel (cwd0 : String) (env : SolvateEnv)
    (struct top : String) (distance : ℚ) (boxtype : String)
    (concentration : ℚ) (cation anion water ndx mainselection dirname : String) :
    cwdEventsOk (solvateModel cwd0 env struct top distance boxtype concentration
      cation anion water ndx mainselection dirname).1.events (joinPath cwd0 dirname) = true := by
  unfold solvateModel in_dir
  dsimp only
  repeat' first
    | apply cwdEventsOk_solvateBody
    | apply cwdEventsOk_bind
    | apply cwdEventsOk_ite
    | intro _
    | split
    | simp [cwdEventsOk, eventCwd]

theorem mem_bind_events {α β : Type} (r : ResM α) (f : α → ResM β) (e : Event)
    (h : e ∈ r.events) : e ∈ (Bind.bind r f).events := by
  have hb : Bind.bind r f = (match r.result with
    | Except.error e2 => (⟨r.events, Except.error e2⟩ : ResM β)
    | Except.ok a => ⟨r.events ++ (f a).events, (f a).result⟩) := rfl
  rw [hb]
  cases hres : r.result <;> simp [h]

theorem bind_result_congr {α β : Type} (r1 r2 : ResM α) (f : α → ResM β)
    (h : r1.result = r2.result) :
    (Bind.bind r1 f).result = (Bind.bind r2 f).result := by
  rcases hr : r1.result with e | a
  · have hr2 : r2.result = Except.error e := by rw [← h, hr]
    rw [bind_eq_of_err hr, bind_eq_of_err hr2]
  · have hr2 : r2.result = Except.ok a := by rw [← h, hr]
    rw [bind_eq_of_ok hr, bind_eq_of_ok hr2]

-- ===================================================================
-- Claim theorems
-- ===================================================================

/-- Claim C7: every stage function (topology, solvate, energy_minimize, _setup_MD)
performs its external-tool invocations and output-file creation with the
process working directory switched to its dirname argument, and the working
directory the caller observes after the stage function finishes equals the
working directory before the call (also when the stage raises). -/
theorem stage_dirscope_spec :
    (∀ (cwd0 : String) (env : TopEnv) (struct protein top dirname : String),
      cwdEventsOk (topologyModel cwd0 env struct protein top dirname).1.events
        (joinPath cwd0 dirname) = true ∧
      (topologyModel cwd0 env struct protein top dirname).2 = cwd0) ∧
    (∀ (cwd0 : String) (env : SolvateEnv) (struct top : String) (distance : ℚ)
        (boxtype : String) (concentration : ℚ)
        (cation anion water ndx mainselection dirname : String),
      cwdEventsOk (solvateModel cwd0 env struct top distance boxtype concentration
        cation anion water ndx mainselection dirname).1.events (joinPath cwd0 dirname) = true ∧
      (solvateModel cwd0 env struct top distance boxtype concentration
        cation anion water ndx mainselection dirname).2 = cwd0) ∧
    (∀ (cwd0 : String) (env : EmEnv) (struct top dirname : String) (kwargs : Dict MdpVal),
      cwdEventsOk (energyMinimizeModel cwd0 env struct top dirname kwargs).1.events
        (joinPath cwd0 dirname) = true ∧
      (energyMinimizeModel cwd0 env struct top dirname kwargs).2 = cwd0) ∧
    (∀ (cwd0 : String) (env : MDEnv) (dirname deffnm : String)
        (struct : Option String) (top : String) (ndx : Option String)
        (mainselection : Option String) (sge : String) (sgename : Option String)
        (dt runtime : ℚ) (mdp_kwargs : Dict MdpVal),
      cwdEventsOk (setupMDModel cwd0 env dirname deffnm struct top ndx mainselection
        sge sgename dt runtime mdp_kwargs).1.events (joinPath cwd0 dirname) = true ∧
      (setupMDModel cwd0 env dirname deffnm struct top ndx mainselection
        sge sgename dt runtime mdp_kwargs).2 = cwd0) := by
  refine ⟨?_, ?_, ?_, ?_⟩
  · intro cwd0 env struct protein top dirname
    exact ⟨cwdEventsOk_topologyModel cwd0 env struct protein top dirname, rfl⟩
  · intro cwd0 env struct top distance boxtype concentration cation anion water ndx mainselection dirname
    exact ⟨cwdEventsOk_solvateModel cwd0 env struct top distance boxtype concentration
      cation anion water ndx mainselection dirname, rfl⟩
  · intro cwd0 env struct top dirname kwargs
    exact ⟨cwdEventsOk_emModel cwd0 env struct top dirname kwargs, rfl⟩
  · intro cwd0 env dirname deffnm struct top ndx mainselection sge sgename dt runtime mdp_kwargs
    exact ⟨cwdEventsOk_setupMDModel cwd0 env dirname deffnm struct top ndx mainselection
        sge sgename dt runtime mdp_kwargs,
      setupMDModel_cwd_restored cwd0 env dirname deffnm struct top ndx mainselection
        sge sgename dt runtime mdp_kwargs⟩

/-- Claim C2: every execution of solvate that reaches the counter-ion computation
executes the augmented assignment of line 339, which reads the name n_anions
that is never bound in the function (only n_anion is), so it raises
NameError; consequently no execution of solvate invokes genion, creates the
ionized.gro symlink, builds the main index file (the only make_ndx call that
can happen is the OW water count when concentration is nonzero) or reaches
the compact-pdb call or the return statement. -/
theorem solvate_nameerror_spec
    (cwd0 : String) (env : SolvateEnv) (struct top : String) (distance : ℚ)
    (boxtype : String) (concentration : ℚ)
    (cation anion water ndx mainselection dirname : String) :
    ((concentration = 0 ∨ dget? (groupsByName env.owGroups) "OW" ≠ none) →
      (solvateModel cwd0 env struct top distance boxtype concentration cation anion
        water ndx mainselection dirname).1.result
        = Except.error (PyError.nameError "n_anions")) ∧
    countTool (solvateModel cwd0 env struct top distance boxtype concentration cation anion
      water ndx mainselection dirname).1.events "genion" = 0 ∧
    countTool (solvateModel cwd0 env struct top distance boxtype concentration cation anion
      water ndx mainselection dirname).1.events "trjconv" = 0 ∧
    hasSymlink (solvateModel cwd0 env struct top distance boxtype concentration cation anion
      water ndx mainselection dirname).1.events = false ∧
    countTool (solvateModel cwd0 env struct top distance boxtype concentration cation anion
      water ndx mainselection dirname).1.events "make_ndx"
      = (if concentration = 0 then 0 else 1) ∧
    isOkB (solvateModel cwd0 env struct top distance boxtype concentration cation anion
      water ndx mainselection dirname).1.result = false := by
  constructor
  · intro hreach
    rcases hreach with hc | how
    · simp [solvateModel, solvateBody, in_dir, hc, pyLocal]
    · by_cases hc : concentration = 0
      · simp [solvateModel, solvateBody, in_dir, hc, pyLocal]
      · rcases hOW : dget? (groupsByName env.owGroups) "OW" with _ | g
        · exact absurd hOW how
        · simp [solvateModel, solvateBody, in_dir, hc, pyLocal, hOW]
  · by_cases hc : concentration = 0
    · simp [solvateModel, solvateBody, in_dir, hc, pyLocal, countTool, hasSymlink, isOkB]
    · rcases hOW : dget? (groupsByName env.owGroups) "OW" with _ | g
      · simp [solvateModel, solvateBody, in_dir, hc, pyLocal, countTool, hasSymlink, isOkB, hOW]
      · simp [solvateModel, solvateBody, in_dir, hc, pyLocal, countTool, hasSymlink, isOkB, hOW]

/-- Witness for C2 at a concrete input reaching the counter-ion computation. -/
theorem solvate_nameerror_spec_w :
    (solvateModel "/w" ⟨0, [], 0, ⟨Finset.range 3, [⟨"System", Finset.range 3⟩]⟩,
        Finset.range 1, false, false⟩
      "p.pdb" "t.top" 1 "cubic" 0 "NA+" "CL-" "spc" "m.ndx" "\"Protein\"" "solvate").1.result
      = Except.error (PyError.nameError "n_anions") :=
  (solvate_nameerror_spec "/w" ⟨0, [], 0, ⟨Finset.range 3, [⟨"System", Finset.range 3⟩]⟩,
      Finset.range 1, false, false⟩
    "p.pdb" "t.top" 1 "cubic" 0 "NA+" "CL-" "spc" "m.ndx" "\"Protein\"" "solvate").1
    (Or.inl rfl)

/-- Claim C1: the counter-ion derivation of solvate cannot complete as the claim
describes: the run reaches line 339, whose augmented assignment names
n_anions instead of the bound n_anion, and stops with NameError, so N_ions
is never added to the anion count and neither genion nor the symlink
fallback is reached.  Evaluated here at concentration 0 and reported total
charge 0 (where the claim predicts the ionized.gro symlink fallback). -/
theorem solvate_counterion_slip :
    (solvateModel "/work" ⟨0, [], 0, ⟨Finset.range 3, [⟨"System", Finset.range 3⟩]⟩,
        Finset.range 1, false, false⟩
      "top/protein.pdb" "top/system.top" (9 / 10) "dodecahedron" 0 "NA+" "CL-" "spc"
      "main.ndx" "\"Protein\"" "solvate").1.result
      = Except.error (PyError.nameError "n_anions") ∧
    hasSymlink (solvateModel "/work" ⟨0, [], 0, ⟨Finset.range 3, [⟨"System", Finset.range 3⟩]⟩,
        Finset.range 1, false, false⟩
      "top/protein.pdb" "top/system.top" (9 / 10) "dodecahedron" 0 "NA+" "CL-" "spc"
      "main.ndx" "\"Protein\"" "solvate").1.events = false := by
  constructor
  · rfl
  · rfl

/-- Claim C8: topology cannot return its result mapping: the return dictionary is
built with realpath(dirname, top) and realpath(dirname, protein.pdb)
(line 184), two-argument calls of the one-argument os.path.realpath imported
on line 107, so topology raises TypeError after a successful pdb2gmx run
instead of returning the top/struct mapping (solvate has the same
two-argument realpath calls on lines 377-378 behind its earlier NameError). -/
theorem topology_return_typeerror :
    (topologyModel "/work" ⟨true⟩ "protein.pdb" "protein" "system.top" "top").1.result
      = Except.error (PyError.typeError "realpath() takes exactly 1 argument") ∧
    countTool (topologyModel "/work" ⟨true⟩ "protein.pdb" "protein" "system.top" "top").1.events
      "pdb2gmx" = 1 := by
  constructor
  · rfl
  · rfl

/-- Claim C10: add_mdp_includes never overwrites a caller-supplied include value;
when the key is absent it appends include = -I. -I.. -I(dirname of the
topology); it is idempotent, and with None it returns a fresh dictionary
holding only the include entry. -/
theorem add_mdp_includes_spec (t : String) (d : Dict MdpVal) :
    (∀ v, dget? d "include" = some v → add_mdp_includes t (some d) = d) ∧
    (dget? d "include" = none →
      add_mdp_includes t (some d)
        = d ++ [("include", MdpVal.str (mdpIncludeString t))]) ∧
    add_mdp_includes t (some (add_mdp_includes t (some d))) = add_mdp_includes t (some d) ∧
    add_mdp_includes t none = [("include", MdpVal.str (mdpIncludeString t))] := by
  refine ⟨?_, ?_, ?_, rfl⟩
  · intro v hv
    unfold add_mdp_includes dsetdefault
    simp [hv]
  · intro hnone
    unfold add_mdp_includes dsetdefault
    simp [hnone]
  · rcases hinc : dget? d "include" with _ | v
    · have h1 : add_mdp_includes t (some d)
          = d ++ [("include", MdpVal.str (mdpIncludeString t))] := by
        unfold add_mdp_includes dsetdefault
        simp [hinc]
      have h2 : dget? (d ++ [("include", MdpVal.str (mdpIncludeString t))]) "include"
          = some (MdpVal.str (mdpIncludeString t)) := by
        rw [dget?_append_right _ _ _ hinc]
        exact dget?_singleton_self _ _
      rw [h1]
      unfold add_mdp_includes dsetdefault
      simp [h2]
    · have h1 : add_mdp_includes t (some d) = d := by
        unfold add_mdp_includes dsetdefault
        simp [hinc]
      rw [h1, h1]

/-- Witness for C10 at concrete inputs: a supplied include survives, an
absent one is filled in. -/
theorem add_mdp_includes_spec_w :
    add_mdp_includes "top/system.top" (some [("include", MdpVal.str "-Imine")])
      = [("include", MdpVal.str "-Imine")] ∧
    add_mdp_includes "top/system.top" (some [("nsteps", MdpVal.num 100)])
      = [("nsteps", MdpVal.num 100)]
          ++ [("include", MdpVal.str (mdpIncludeString "top/system.top"))] :=
  ⟨(add_mdp_includes_spec "top/system.top" [("include", MdpVal.str "-Imine")]).1
      (MdpVal.str "-Imine") rfl,
   (add_mdp_includes_spec "top/system.top" [("nsteps", MdpVal.num 100)]).2.1 rfl⟩

/-- Claim C5: make_main_index appends exactly the two synthetic groups at the end:
the group selected by the user selection (the last group of pass 1, group
number len(groups)-1) renamed to __main__, and __environment__ built by the
negation command as the set complement of __main__ within the system; the
parsed list of all resulting groups is returned.  The hypothesis rules out a
pre-existing group already named __main__, which the negation command would
pick up instead. -/
theorem make_main_index_spec (st0 : NdxState) (selection : String) (a : Finset ℕ)
    (struct ndx : String) (oldndx : Option String) (cwd : String)
    (h : ∀ g ∈ st0.groups, g.name ≠ "__main__") :
    (make_main_index_model st0 selection a struct ndx oldndx cwd).result
      = Except.ok (parseNdxlist ⟨st0.allAtoms,
          st0.groups ++ [⟨"__main__", a⟩, ⟨"__environment__", st0.allAtoms \ a⟩]⟩) := by
  have hfind : st0.groups.find? (fun g => g.name == "__main__") = none := by
    rw [List.find?_eq_none]
    intro g hg
    simpa using h g hg
  have hst1 : ndxRun st0 [NdxCmd.select selection a, NdxCmd.emptyCmd, NdxCmd.quit]
      = ⟨st0.allAtoms, st0.groups ++ [⟨selection, a⟩]⟩ := rfl
  have hparse1 : parseNdxlist ⟨st0.allAtoms, st0.groups ++ [⟨selection, a⟩]⟩
      = parseNdxAux 0 st0.groups ++ [⟨selection, st0.groups.length, a.card⟩] := by
    unfold parseNdxlist
    rw [parseNdxAux_append]
    simp [parseNdxAux]
  have hlast : (parseNdxAux 0 st0.groups
        ++ [(⟨selection, st0.groups.length, a.card⟩ : ParsedGroup)]).getLast?
      = some ⟨selection, st0.groups.length, a.card⟩ := List.getLast?_concat _
  have hlen : (parseNdxAux 0 st0.groups
        ++ [(⟨selection, st0.groups.length, a.card⟩ : ParsedGroup)]).length - 1
      = st0.groups.length := by
    simp [parseNdxAux_length]
  have hname1 : ndxStep ⟨st0.allAtoms, st0.groups ++ [⟨selection, a⟩]⟩
      (NdxCmd.nameCmd st0.groups.length "__main__")
      = ⟨st0.allAtoms, st0.groups ++ [⟨"__main__", a⟩]⟩ := by
    simp only [ndxStep]
    rw [getElem?_concat_len]
    simp only []
    rw [set_concat_len]
  have hneg : ndxStep ⟨st0.allAtoms, st0.groups ++ [⟨"__main__", a⟩]⟩
      (NdxCmd.negGroup "__main__")
      = ⟨st0.allAtoms, (st0.groups ++ [⟨"__main__", a⟩]) ++ [⟨"!__main__", st0.allAtoms \ a⟩]⟩ := by
    simp only [ndxStep]
    rw [find?_concat_of_none _ _ _ hfind (by simp)]
    rfl
  have hname2 : ndxStep
      ⟨st0.allAtoms, (st0.groups ++ [⟨"__main__", a⟩]) ++ [⟨"!__main__", st0.allAtoms \ a⟩]⟩
      (NdxCmd.nameCmd (st0.groups.length + 1) "__environment__")
      = ⟨st0.allAtoms, (st0.groups ++ [⟨"__main__", a⟩]) ++ [⟨"__environment__", st0.allAtoms \ a⟩]⟩ := by
    simp only [ndxStep]
    have hl : st0.groups.length + 1 = (st0.groups ++ [(⟨"__main__", a⟩ : NdxGroup)]).length := by simp
    rw [hl, getElem?_concat_len]
    simp only []
    rw [set_concat_len]
  simp only [make_main_index_model, hst1, hparse1, emit_def, bind_ok]
  rw [hlast]
  simp only [hlen]
  simp only [ne_eq, not_true_eq_false, if_false, ite_false, reduceIte]
  simp only [ndxRun, List.foldl, hname1, hneg, hname2]
  simp only [ndxStep, bind_ok, pure_res]
  rw [List.append_assoc]
  rfl

/-- Witness for C5 at a concrete system of 5 atoms with one default group. -/
theorem make_main_index_spec_w :
    (make_main_index_model ⟨Finset.range 5, [⟨"System", Finset.range 5⟩]⟩ "Protein"
        (Finset.range 2) "ionized.tpr" "main.ndx" none "/w").result
      = Except.ok (parseNdxlist ⟨Finset.range 5,
          [⟨"System", Finset.range 5⟩] ++ [⟨"__main__", Finset.range 2⟩,
           ⟨"__environment__", Finset.range 5 \ Finset.range 2⟩]⟩) :=
  make_main_index_spec ⟨Finset.range 5, [⟨"System", Finset.range 5⟩]⟩ "Protein"
    (Finset.range 2) "ionized.tpr" "main.ndx" none "/w" (by decide)

theorem countTool_append (a b : List Event) (t : String) :
    countTool (a ++ b) t = countTool a t + countTool b t := by
  simp [countTool, List.filter_append]

theorem mmi_makendx_count (st0 : NdxState) (sel : String) (a : Finset ℕ)
    (struct ndx : String) (oldndx : Option String) (cwd : String)
    (gs : List ParsedGroup)
    (h : (make_main_index_model st0 sel a struct ndx oldndx cwd).result = Except.ok gs) :
    countTool (make_main_index_model st0 sel a struct ndx oldndx cwd).events "make_ndx" = 2 := by
  unfold make_main_index_model at h ⊢
  simp only [emit_def, bind_ok] at h ⊢
  rcases hgl : (parseNdxlist (ndxRun st0 [NdxCmd.select sel a, NdxCmd.emptyCmd,
      NdxCmd.quit])).getLast? with _ | pg <;> simp only [hgl] at h ⊢
  · simp at h
  · split at h
    · simp at h
    · next hcond =>
        simp only [if_neg hcond]
        simp [countTool]

/-- Claim C3: whenever the Tcoupl mdp parameter does not lowercase to the string no
and mainselection is given, _setup_MD builds the index file (the two
make_ndx invocations of make_main_index) and computes
x = natoms(__main__)/natoms(__environment__) from the resulting parsed
groups, with x forced to 0 (under a warning) when either group is missing;
the parameters are overridden exactly when x < 0.1: tc-grps becomes System,
tau_t keeps the caller-supplied value and defaults to 0.1, ref_t keeps the
caller-supplied value and defaults to 300; when x is not below 0.1 the
parameters are returned unchanged; when Tcoupl lowercases to no or
mainselection is None the whole block is skipped. -/
theorem tcoupl_adjust_spec
    (P0 : Dict MdpVal) (msel : String) (st0 : NdxState) (selAtoms : Finset ℕ)
    (structure_ mainindex : String) (index : Option String) (cwd : String)
    (tc : String) (groups : List ParsedGroup) (x : ℚ) (w : Bool)
    (htc : mdpLower (dgetD P0 "Tcoupl" (MdpVal.str "")) = Except.ok tc)
    (hno : tc ≠ "no")
    (hgs : (make_main_index_model st0 msel selAtoms structure_ mainindex index cwd).result
            = Except.ok groups)
    (hx : computeX groups = Except.ok (x, w)) :
    (tcouplSection P0 (some msel) st0 selAtoms structure_ mainindex index cwd).result
      = Except.ok (tcouplAdjust P0 x, some (realpathStr cwd mainindex)) ∧
    countTool (tcouplSection P0 (some msel) st0 selAtoms structure_ mainindex index cwd).events
      "make_ndx" = 2 ∧
    (x < 1 / 10 →
      dget? (tcouplAdjust P0 x) "tc-grps" = some (MdpVal.str "System") ∧
      dget? (tcouplAdjust P0 x) "tau_t" = some ((dget? P0 "tau_t").getD (MdpVal.num (1 / 10))) ∧
      dget? (tcouplAdjust P0 x) "ref_t" = some ((dget? P0 "ref_t").getD (MdpVal.num 300))) ∧
    (¬ x < 1 / 10 → tcouplAdjust P0 x = P0) ∧
    (∀ gs : List ParsedGroup,
      dget? (natomsDict gs) "__main__" = none ∨ dget? (natomsDict gs) "__environment__" = none →
      computeX gs = Except.ok (0, true)) ∧
    (∀ (P1 : Dict MdpVal) (tc1 : String) (index2 : Option String),
      mdpLower (dgetD P1 "Tcoupl" (MdpVal.str "")) = Except.ok tc1 → tc1 = "no" →
      (tcouplSection P1 (some msel) st0 selAtoms structure_ mainindex index2 cwd).result
        = Except.ok (P1, index2)) ∧
    (∀ index2 : Option String,
      (tcouplSection P0 none st0 selAtoms structure_ mainindex index2 cwd).result
        = Except.ok (P0, index2)) := by
  refine ⟨?_, ?_, ?_, ?_, ?_, ?_, ?_⟩
  · unfold tcouplSection
    rw [htc]
    simp only [liftE_def, bind_ok]
    rw [if_neg hno]
    rw [bind_eq_of_ok hgs]
    rw [hx]
    simp only [liftE_def, bind_ok]
    split <;> split <;> rfl
  · unfold tcouplSection
    rw [htc]
    simp only [liftE_def, bind_ok]
    rw [if_neg hno]
    rw [bind_eq_of_ok hgs]
    rw [hx]
    simp only [liftE_def, bind_ok]
    have hcnt := mmi_makendx_count st0 msel selAtoms structure_ mainindex index cwd groups hgs
    simp only [countTool_append, hcnt]
    split <;> split <;> simp [countTool]
  · intro hxlt
    unfold tcouplAdjust
    rw [if_pos hxlt]
    dsimp only
    refine ⟨?_, ?_, ?_⟩
    · rw [dget?_dinsert_ne _ _ _ _ (by decide), dget?_dinsert_ne _ _ _ _ (by decide)]
      exact dget?_dinsert_self _ _ _
    · rw [dget?_dinsert_ne _ _ _ _ (by decide)]
      rw [dget?_dinsert_self]
      rfl
    · rw [dget?_dinsert_self]
      unfold dpopD
      dsimp only
      rw [dget?_filter_ne _ _ _ (by decide)]
  · intro hxlt
    unfold tcouplAdjust
    rw [if_neg hxlt]
  · intro gs hmiss
    unfold computeX
    rcases hm : dget? (natomsDict gs) "__main__" with _ | m <;>
      rcases he : dget? (natomsDict gs) "__environment__" with _ | e
    · rfl
    · rfl
    · rfl
    · rcases hmiss with hno1 | hno2
      · rw [hm] at hno1
        exact absurd hno1 (by simp)
      · rw [he] at hno2
        exact absurd hno2 (by simp)
  · intro P1 tc1 index2 h1 h2
    unfold tcouplSection
    rw [h1]
    simp only [liftE_def, bind_ok]
    rw [if_pos h2]
    rfl
  · intro index2
    unfold tcouplSection
    rw [htc]
    simp only [liftE_def, bind_ok]
    rfl

/-- Witness for C3 at a concrete 12-atom system whose main group holds one
atom, so that x = 1/11 < 0.1 and the System override fires. -/
theorem tcoupl_adjust_spec_w :
    (tcouplSection [("Tcoupl", MdpVal.str "Berendsen")] (some "Protein")
        ⟨Finset.range 12, [⟨"System", Finset.range 12⟩]⟩ (Finset.range 1)
        "em.pdb" "md.ndx" none "/w").result
      = Except.ok (tcouplAdjust [("Tcoupl", MdpVal.str "Berendsen")] (1 / 11),
          some (realpathStr "/w" "md.ndx")) ∧
    dget? (tcouplAdjust [("Tcoupl", MdpVal.str "Berendsen")] (1 / 11)) "tc-grps"
      = some (MdpVal.str "System") :=
  ⟨(tcoupl_adjust_spec [("Tcoupl", MdpVal.str "Berendsen")] "Protein"
      ⟨Finset.range 12, [⟨"System", Finset.range 12⟩]⟩ (Finset.range 1)
      "em.pdb" "md.ndx" none "/w" "berendsen"
      [⟨"System", 0, 12⟩, ⟨"__main__", 1, 1⟩, ⟨"__environment__", 2, 11⟩]
      (1 / 11) false rfl (by decide) (by decide)
      (by simp only [computeX, natomsDict, dinsert, dget?, List.find?, List.foldl, List.map,
            String.reduceBEq, Option.map_some, Option.isSome_some, reduceIte, Option.map]
          norm_num)).1,
   ((tcoupl_adjust_spec [("Tcoupl", MdpVal.str "Berendsen")] "Protein"
      ⟨Finset.range 12, [⟨"System", Finset.range 12⟩]⟩ (Finset.range 1)
      "em.pdb" "md.ndx" none "/w" "berendsen"
      [⟨"System", 0, 12⟩, ⟨"__main__", 1, 1⟩, ⟨"__environment__", 2, 11⟩]
      (1 / 11) false rfl (by decide) (by decide)
      (by simp only [computeX, natomsDict, dinsert, dget?, List.find?, List.foldl, List.map,
            String.reduceBEq, Option.map_some, Option.isSome_some, reduceIte, Option.map]
          norm_num)).2.2.1 (by norm_num)).1⟩

/-- Claim C4: when the mdrun_d invocation of energy_minimize raises OSError or
AttributeError, an AutoCorrectionWarning is issued and mdrun is invoked with
the identical argument set (the same fixed dictionary mdrunArgs that a
successful mdrun_d invocation receives); and when the run phase completed
but em.pdb does not exist in the stage directory, energy_minimize raises
GromacsError, distinguishing the missing-output failure from the
tool-not-found failure. -/
theorem energy_minimize_fallback_spec
    (cwd0 : String) (env : EmEnv) (struct top dirname : String) (kwargs : Dict MdpVal)
    (hg : env.gromppOk = true) :
    ((env.mdrunD = RunOutcome.raises PyError.osError ∨
      env.mdrunD = RunOutcome.raises PyError.attributeError) →
      Event.warn WarnKind.autoCorrection
        ∈ (energyMinimizeModel cwd0 env struct top dirname kwargs).1.events ∧
      Event.toolCall "mdrun" (joinPath cwd0 dirname) mdrunArgs
        ∈ (energyMinimizeModel cwd0 env struct top dirname kwargs).1.events) ∧
    (env.mdrunD = RunOutcome.ok →
      Event.toolCall "mdrun_d" (joinPath cwd0 dirname) mdrunArgs
        ∈ (energyMinimizeModel cwd0 env struct top dirname kwargs).1.events) ∧
    ((env.mdrunD = RunOutcome.ok ∨
      ((env.mdrunD = RunOutcome.raises PyError.osError ∨
        env.mdrunD = RunOutcome.raises PyError.attributeError) ∧
        env.mdrun = RunOutcome.ok)) →
      env.emPdbExists = false →
      (energyMinimizeModel cwd0 env struct top dirname kwargs).1.result
        = Except.error (PyError.gromacsError "Energy minimized system NOT produced.")) := by
  refine ⟨?_, ?_, ?_⟩
  · intro hd
    rcases hd with hd | hd <;>
      rcases hm : env.mdrun with _ | e2 <;>
        rcases hp : env.emPdbExists <;>
          simp [energyMinimizeModel, in_dir, hg, hd, hm, hp, check_mdpargsM]
  · intro hd
    rcases hp : env.emPdbExists <;>
      simp [energyMinimizeModel, in_dir, hg, hd, hp, check_mdpargsM]
  · intro hrun hpdb
    rcases hrun with hd | ⟨hd, hm⟩
    · simp [energyMinimizeModel, in_dir, hg, hd, hpdb, check_mdpargsM]
    · rcases hd with hd | hd <;>
        simp [energyMinimizeModel, in_dir, hg, hd, hm, hpdb, check_mdpargsM]

/-- Witness for C4: a missing double-precision binary (OSError) with a
working mdrun and no em.pdb afterwards. -/
theorem energy_minimize_fallback_spec_w :
    (Event.warn WarnKind.autoCorrection
      ∈ (energyMinimizeModel "/w" ⟨["nsteps"], true, RunOutcome.raises PyError.osError,
          RunOutcome.ok, false⟩ "s.gro" "t.top" "em" []).1.events ∧
     Event.toolCall "mdrun" (joinPath "/w" "em") mdrunArgs
      ∈ (energyMinimizeModel "/w" ⟨["nsteps"], true, RunOutcome.raises PyError.osError,
          RunOutcome.ok, false⟩ "s.gro" "t.top" "em" []).1.events) ∧
    (energyMinimizeModel "/w" ⟨["nsteps"], true, RunOutcome.raises PyError.osError,
        RunOutcome.ok, false⟩ "s.gro" "t.top" "em" []).1.result
      = Except.error (PyError.gromacsError "Energy minimized system NOT produced.") :=
  ⟨(energy_minimize_fallback_spec "/w" ⟨["nsteps"], true, RunOutcome.raises PyError.osError,
      RunOutcome.ok, false⟩ "s.gro" "t.top" "em" [] rfl).1 (Or.inl rfl),
   (energy_minimize_fallback_spec "/w" ⟨["nsteps"], true, RunOutcome.raises PyError.osError,
      RunOutcome.ok, false⟩ "s.gro" "t.top" "em" [] rfl).2.2 (Or.inr ⟨Or.inl rfl, rfl⟩) rfl⟩

/-- Claim C6: check_mdpargs returns True exactly when the dictionary of unprocessed
override keys returned by the parameter-file edit is empty, and emits a
UsageWarning exactly when it is not; energy_minimize and _setup_MD forward
the unprocessed entries verbatim as additional command-line options of their
grompp invocation instead of dropping them. -/
theorem check_mdpargs_forwarding_spec :
    (∀ d : Dict MdpVal, ((check_mdpargs d).2 = true ↔ d = []) ∧
      (Event.warn WarnKind.usage ∈ (check_mdpargs d).1 ↔ d ≠ [])) ∧
    (∀ (cwd0 : String) (env : EmEnv) (struct top dirname : String) (kwargs : Dict MdpVal),
      Event.gromppCall (joinPath cwd0 dirname)
        [("f", MdpVal.str "em.mdp"), ("o", MdpVal.str "em.tpr"),
         ("c", MdpVal.str (realpathStr cwd0 struct)), ("p", MdpVal.str (realpathStr cwd0 top))]
        (edit_mdp env.templKeys (emPrep (realpathStr cwd0 top) kwargs).2.2)
        ∈ (energyMinimizeModel cwd0 env struct top dirname kwargs).1.events) ∧
    (∀ (env : MDEnv) (P0 : Dict MdpVal) (msel : Option String)
        (structure_ topology mdpName tpr mainindex sge : String)
        (index : Option String) (cwd : String) (pi2 : Dict MdpVal × Option String)
        (P2 : Dict MdpVal),
      (tcouplSection P0 msel env.ndxState env.selAtoms structure_ mainindex index cwd).result
        = Except.ok pi2 →
      couplBlank pi2.1 = Except.ok P2 →
      Event.gromppCall cwd
        [("f", MdpVal.str mdpName), ("p", MdpVal.str topology),
         ("c", MdpVal.str structure_),
         ("n", match pi2.2 with | some s => MdpVal.str s | none => MdpVal.pynone),
         ("o", MdpVal.str tpr)]
        (edit_mdp env.templKeys P2)
        ∈ (setupMDBody env P0 msel structure_ topology mdpName tpr mainindex sge
            index cwd).events) := by
  refine ⟨?_, ?_, ?_⟩
  · intro d
    constructor
    · simp [check_mdpargs, List.length_eq_zero]
    · rcases d with _ | ⟨p, d⟩ <;> simp [check_mdpargs]
  · intro cwd0 env struct top dirname kwargs
    unfold energyMinimizeModel in_dir
    dsimp only
    simp only [bind_ok]
    rw [List.mem_append]
    right
    apply mem_bind_events
    simp [check_mdpargsM]
  · intro env P0 msel structure_ topology mdpName tpr mainindex sge index cwd pi2 P2 h1 h2
    unfold setupMDBody
    rw [bind_eq_of_ok h1]
    dsimp only
    rw [List.mem_append]
    right
    rw [h2]
    simp [check_mdpargsM]

/-- Witness for C6: the _setup_MD forwarding conjunct applied at a skipped
T-coupling block (mainselection None) with one unrecognized key. -/
theorem check_mdpargs_forwarding_spec_w :
    Event.gromppCall "/w/MD"
      [("f", MdpVal.str "md.mdp"), ("p", MdpVal.str "t.top"),
       ("c", MdpVal.str "s.gro"), ("n", MdpVal.pynone), ("o", MdpVal.str "md.tpr")]
      (edit_mdp ["nsteps"] [("maxwarn", MdpVal.num 1)])
      ∈ (setupMDBody ⟨["nsteps"], ⟨Finset.range 2, []⟩, Finset.range 1, true⟩
          [("maxwarn", MdpVal.num 1)] none "s.gro" "t.top" "md.mdp" "md.tpr" "md.ndx"
          "sge.sh" none "/w/MD").events :=
  (check_mdpargs_forwarding_spec).2.2
    ⟨["nsteps"], ⟨Finset.range 2, []⟩, Finset.range 1, true⟩
    [("maxwarn", MdpVal.num 1)] none "s.gro" "t.top" "md.mdp" "md.tpr" "md.ndx"
    "sge.sh" none "/w/MD" ([("maxwarn", MdpVal.num 1)], none)
    [("maxwarn", MdpVal.num 1)] rfl rfl

/-- Claim C9: the derived simulation parameters are deterministic functions of the
quoted inputs alone: equal OW group data and equal concentration give equal
ion-pair counts, equal reported total charge gives equal counter-ion counts,
equal parsed group lists give the same System-override decision, a make_ndx
oracle producing the same parsed groups leads tcouplSection to the same
result whatever else differs in the oracle state, and the default runtime
1e3 with dt 0.002 gives nsteps = 500000. -/
theorem derived_params_deterministic :
    (∀ (e1 e2 : SolvateEnv) (c1 c2 : ℚ),
      dget? (groupsByName e1.owGroups) "OW" = dget? (groupsByName e2.owGroups) "OW" →
      c1 = c2 →
      (dget? (groupsByName e1.owGroups) "OW").map (fun g => ionPairs g.natoms c1)
        = (dget? (groupsByName e2.owGroups) "OW").map (fun g => ionPairs g.natoms c2)) ∧
    (∀ q1 q2 : ℚ, q1 = q2 → counterIons q1 = counterIons q2) ∧
    (∀ gs1 gs2 : List ParsedGroup, gs1 = gs2 →
      (computeX gs1).map (fun xw => decide (xw.1 < 1 / 10))
        = (computeX gs2).map (fun xw => decide (xw.1 < 1 / 10))) ∧
    (∀ (P0 : Dict MdpVal) (msel : Option String) (st1 st2 : NdxState)
        (a1 a2 : Finset ℕ) (s m : String) (i : Option String) (cwd : String),
      (make_main_index_model st1 (msel.getD "") a1 s m i cwd).result
        = (make_main_index_model st2 (msel.getD "") a2 s m i cwd).result →
      (tcouplSection P0 msel st1 a1 s m i cwd).result
        = (tcouplSection P0 msel st2 a2 s m i cwd).result) ∧
    nstepsCalc 1000 (2 / 1000) = Except.ok 500000 := by
  refine ⟨?_, ?_, ?_, ?_, ?_⟩
  · intro e1 e2 c1 c2 h hc
    rw [h, hc]
  · intro q1 q2 h
    rw [h]
  · intro gs1 gs2 h
    rw [h]
  · intro P0 msel st1 st2 a1 a2 s m i cwd h
    unfold tcouplSection
    rcases hl : mdpLower (dgetD P0 "Tcoupl" (MdpVal.str "")) with e | tc <;>
      simp only [hl, liftE_def, bind_ok, bind_err]
    rcases msel with _ | s2
    · rfl
    · dsimp only
      by_cases htc : tc = "no"
      · simp [htc]
      · simp only [htc, if_false, ite_false, reduceIte]
        apply bind_result_congr
        simpa using h
  · norm_num [nstepsCalc, pyint]

/-- Witness for C9 discharging the equal-input hypotheses at concrete
values. -/
theorem derived_params_deterministic_w :
    counterIons (-2) = counterIons (-2) ∧
    (tcouplSection [] (some "Protein") ⟨Finset.range 4, [⟨"S", Finset.range 4⟩]⟩
        (Finset.range 1) "s" "m.ndx" none "/w").result
      = (tcouplSection [] (some "Protein") ⟨Finset.range 4, [⟨"S", Finset.range 4⟩]⟩
        (Finset.range 1) "s" "m.ndx" none "/w").result :=
  ⟨(derived_params_deterministic).2.1 (-2) (-2) rfl,
   (derived_params_deterministic).2.2.2.1 [] (some "Protein")
     ⟨Finset.range 4, [⟨"S", Finset.range 4⟩]⟩ ⟨Finset.range 4, [⟨"S", Finset.range 4⟩]⟩
     (Finset.range 1) (Finset.range 1) "s" "m.ndx" none "/w" rfl⟩

end Setup
